import Mathlib

set_option maxRecDepth 8192

/-!
Shallow embedding of the OpoBot scheduled-search orchestration core
(`services/scheduler_service.py`, `services/email_search_service.py`,
`services/profile_service.py`) together with theorems settling the
frozen claims about its specification.
-/

namespace OpoBot

/-! ### Python string primitives

`str.strip()`, `str.split()`, `str.lower()` and the ad-hoc
`_clean_string` helpers of the two services, modelled over `String`
(sequences of `Char`). -/

/-- Characters Python's `str.strip()` / `str.split()` treat as whitespace
(ASCII subset; all inputs reaching these helpers are ASCII-cleaned). -/
def pyIsSpace (c : Char) : Bool :=
  c = ' ' || c = '\t' || c = '\n' || c = '\r' || c = '\x0b' || c = '\x0c'

/-- Python `str.strip()` on the underlying character list. -/
def pyStripList (l : List Char) : List Char :=
  ((l.dropWhile pyIsSpace).reverse.dropWhile pyIsSpace).reverse

/-- Python `str.strip()`. -/
def pyStrip (s : String) : String := ⟨pyStripList s.data⟩

/-- Helper for `pySplit`: walk the characters, accumulating the current
word (reversed); whitespace closes the current word, empty fragments are
dropped. -/
def pySplitAux : List Char → List Char → List String
  | [], acc => if acc.isEmpty then [] else [⟨acc.reverse⟩]
  | c :: rest, acc =>
    if pyIsSpace c then
      (if acc.isEmpty then [] else [⟨acc.reverse⟩]) ++ pySplitAux rest []
    else
      pySplitAux rest (c :: acc)

/-- Python `str.split()` with no separator: split on whitespace runs,
dropping empty fragments. -/
def pySplit (s : String) : List String :=
  pySplitAux s.data []

/-- Python `str.lower()` (ASCII case mapping, which is all that reaches it
after ASCII cleaning). -/
def pyLower (s : String) : String := ⟨s.data.map Char.toLower⟩

/-- Keep only ASCII characters: Python `text.encode('ascii','ignore').decode('ascii')`. -/
def asciiFilter (l : List Char) : List Char := l.filter (fun c => c.toNat ≤ 127)

namespace EmailSearchService

/-- Character replacements of `EmailSearchService._clean_string`
(non-breaking space and curly quotes). -/
def cleanChar (c : Char) : List Char :=
  if c = '\xa0' then [' ']
  else if c = '’' then ['\'']
  else if c = '‘' then ['\'']
  else if c = '“' then ['"']
  else if c = '”' then ['"']
  else [c]

/-- `EmailSearchService._clean_string`: replace problematic characters,
then drop everything outside ASCII. -/
def clean_string (s : String) : String :=
  ⟨asciiFilter ((s.data.map cleanChar).flatten)⟩

end EmailSearchService

namespace SchedulerService

/-- Character replacements of `SchedulerService._clean_string`
(non-breaking space, curly quotes, dashes, ellipsis). -/
def cleanChar (c : Char) : List Char :=
  if c = '\xa0' then [' ']
  else if c = '’' then ['\'']
  else if c = '‘' then ['\'']
  else if c = '“' then ['"']
  else if c = '”' then ['"']
  else if c = '–' then ['-']
  else if c = '—' then ['-', '-']
  else if c = '…' then ['.', '.', '.']
  else [c]

/-- `SchedulerService._clean_string`. -/
def clean_string (s : String) : String :=
  ⟨asciiFilter ((s.data.map cleanChar).flatten)⟩

end SchedulerService

/-! ### Scheduler configuration (`scheduler_service.py`)

The configuration is a JSON object; fields may be absent, hence the
`Option` fields. -/

/-- The scheduler configuration dictionary (`scheduler_config.json`). -/
structure SchedulerConfig where
  type? : Option String
  enabled? : Option Bool
  time? : Option String
  days? : Option (List String)
  interval? : Option Int
  unit? : Option String
deriving DecidableEq

/-- Splitting a character list on every colon (Python `str.split(":")`
semantics, keeping empty fragments). -/
def splitOnColon : List Char → List (List Char)
  | [] => [[]]
  | c :: rest =>
    let r := splitOnColon rest
    if c = ':' then [] :: r
    else (c :: r.headD []) :: r.tail

/-- Decimal value of a digit list. -/
def digitsToNat (l : List Char) : Nat :=
  l.foldl (fun a c => a * 10 + (c.toNat - 48)) 0

/-- Model of `datetime.strptime(time_str, "%H:%M")` succeeding: two
colon-separated fields of one or two decimal digits, hour below 24 and
minute below 60 (the `%H`/`%M` patterns accept one or two digits and the
whole string must be consumed). -/
def validTimeHHMM (s : String) : Bool :=
  match splitOnColon s.data with
  | [h, m] =>
      !h.isEmpty && h.length ≤ 2 && h.all Char.isDigit &&
      !m.isEmpty && m.length ≤ 2 && m.all Char.isDigit &&
      digitsToNat h ≤ 23 && digitsToNat m ≤ 59
  | _ => false

namespace SchedulerService

/-- Weekday names accepted by `_validate_config`. -/
def validDays : List String :=
  ["monday", "tuesday", "wednesday", "thursday", "friday", "saturday", "sunday"]

/-- `SchedulerService._validate_config`: requires `type` and `enabled` to be
present; for daily/weekly a parseable `HH:MM` time; for weekly a `days`
list whose members are valid weekday names (emptiness is not checked);
for interval a positive interval and a known unit.  The value of
`enabled` is never inspected. -/
def validate_config (c : SchedulerConfig) : Bool :=
  match c.type?, c.enabled? with
  | some t, some _ =>
      (if t = "daily" ∨ t = "weekly" then
        match c.time? with
        | some s => validTimeHHMM s
        | none => false
      else true)
      &&
      (if t = "weekly" then
        match c.days? with
        | some ds => ds.all (fun d => validDays.contains d)
        | none => false
      else if t = "interval" then
        match c.interval?, c.unit? with
        | some i, some u => decide (0 < i) && (u = "minutes" || u = "hours")
        | _, _ => false
      else true)
  | _, _ => false

/-- `SchedulerService._clean_config`: clean every string field (and every
string inside a list field); non-string values pass through. -/
def clean_config (c : SchedulerConfig) : SchedulerConfig where
  type? := c.type?.map clean_string
  enabled? := c.enabled?
  time? := c.time?.map clean_string
  days? := c.days?.map (fun l => l.map clean_string)
  interval? := c.interval?
  unit? := c.unit?.map clean_string

/-- `SchedulerService.save_configuration`: validate, then clean and persist;
raise (modelled as `Except.error`) when validation fails. -/
def save_configuration (config : SchedulerConfig) : Except String SchedulerConfig :=
  if validate_config config then
    Except.ok (clean_config config)
  else
    Except.error ("Error guardando configuracion del programador: "
      ++ clean_string "Configuración de programación inválida")

end SchedulerService

/-! ### Search-criteria compiler (`email_search_service.py`) -/

namespace EmailSearchService

/-- Python `' '.join(...)`. -/
def joinSpace : List String → String
  | [] => ""
  | [w] => w
  | w :: ws => w ++ " " ++ joinSpace ws

/-- Stop words filtered out by `_build_flexible_search_criteria`. -/
def stop_words : List String :=
  ["de", "en", "el", "la", "los", "las", "un", "una", "y", "o", "a",
   "con", "por", "para"]

/-- Significant-word extraction of `_build_flexible_search_criteria`:
keep words whose lower-cased form has length at least 2 and is not a
stop word; if that filter drops everything, fall back to all words of
length at least 2. -/
def significant_words (all_words : List String) : List String :=
  let sw := all_words.filterMap (fun word =>
    let clean_word := pyLower (pyStrip word)
    if 2 ≤ clean_word.length ∧ clean_word ∉ stop_words then
      some (pyStrip word)
    else none)
  if sw.isEmpty then
    all_words.filterMap (fun word =>
      if 2 ≤ (pyStrip word).length then some (pyStrip word) else none)
  else sw

/-- One `SUBJECT "word"` fragment, as the Python f-string builds it. -/
def subjectCriteria (w : String) : String := "SUBJECT \"" ++ w ++ "\""

/-- `EmailSearchService._build_flexible_search_criteria`: the IMAP filter
string built from a raw search title and a since-date.  Mirrors the
source branch for branch; string values equal the Python f-strings. -/
def build_flexible_search_criteria (search_title date_str : String) : String :=
  let clean_title := clean_string (pyStrip search_title)
  if clean_title = "" then
    "SINCE \"" ++ date_str ++ "\""
  else if clean_title.data.contains ' ' then
    let all_words := pySplit clean_title
    let sws := significant_words all_words
    if sws.length = 1 then
      "(SUBJECT \"" ++ sws.headD "" ++ "\" SINCE \"" ++ date_str ++ "\")"
    else if 1 < sws.length then
      let phrase_criteria := "SUBJECT \"" ++ clean_title ++ "\""
      let words_criteria := joinSpace (sws.map subjectCriteria)
      let key_words := sws.take 3
      let key_words_criteria := joinSpace (key_words.map subjectCriteria)
      let combined_criteria :=
        if sws.length ≤ 3 then
          "OR " ++ phrase_criteria ++ " (" ++ words_criteria ++ ")"
        else
          "OR OR " ++ phrase_criteria ++ " (" ++ words_criteria ++ ") ("
            ++ key_words_criteria ++ ")"
      "(" ++ combined_criteria ++ " SINCE \"" ++ date_str ++ "\")"
    else
      "SINCE \"" ++ date_str ++ "\""
  else
    "(SUBJECT \"" ++ clean_title ++ "\" SINCE \"" ++ date_str ++ "\")"

end EmailSearchService

/-! ### IMAP criteria expressions

A small syntax of IMAP search filters together with its rendering into
the wire string, used to state what the compiled filter of
`_build_flexible_search_criteria` means. -/

/-- IMAP search criteria: subject containment, a SINCE date bound, a
parenthesized conjunction (IMAP juxtaposition), and disjunction. -/
inductive Criteria where
  | subject (w : String)
  | since (d : String)
  | andGroup (cs : List Criteria)
  | or (a b : Criteria)

mutual

/-- Rendering of a criteria expression into IMAP wire syntax. -/
def Criteria.render : Criteria → String
  | .subject w => "SUBJECT \"" ++ w ++ "\""
  | .since d => "SINCE \"" ++ d ++ "\""
  | .andGroup cs => "(" ++ Criteria.renderList cs ++ ")"
  | .or a b => "OR " ++ a.render ++ " " ++ b.render

/-- Rendering of a conjunction body: space-separated juxtaposition. -/
def Criteria.renderList : List Criteria → String
  | [] => ""
  | [c] => c.render
  | c :: cs => c.render ++ " " ++ Criteria.renderList cs

end

/-- Modelled from the spec: the filter shape §4.1 steps 5–6 describe.
With at most 3 significant words: (subject contains the full cleaned
phrase) OR (subject contains every significant word), conjoined with the
SINCE date bound; with more than 3, a third OR-alternative requiring
only the first 3 significant words is added to the same two
alternatives. -/
def specFlexibleFilter (clean_title : String) (ws : List String) (d : String) : Criteria :=
  if ws.length ≤ 3 then
    .andGroup [.or (.subject clean_title) (.andGroup (ws.map .subject)), .since d]
  else
    .andGroup [.or (.or (.subject clean_title) (.andGroup (ws.map .subject)))
                   (.andGroup ((ws.take 3).map .subject)),
               .since d]

/-! ### Profile store (`profile_service.py`) -/

/-- One entry of a profile's execution history. -/
structure ExecutionRecord where
  timestamp : Nat
  emails_found : Nat
deriving DecidableEq

/-- Per-profile execution statistics (`profile_stats.json` record). -/
structure ProfileStats where
  total_executions : Nat
  current_emails_found : Nat
  total_emails_accumulated : Nat
  last_execution : Option Nat
  execution_history : List ExecutionRecord
deriving DecidableEq

/-- The record `ProfileService.update_profile_execution` creates for a
profile that has no statistics yet. -/
def initProfileStats : ProfileStats :=
  { total_executions := 0, current_emails_found := 0,
    total_emails_accumulated := 0, last_execution := none,
    execution_history := [] }

/-- A persisted search profile.  `is_active?` is `none` when the stored
record lacks the `is_active` key entirely. -/
structure SearchProfile where
  id : String
  name : String
  is_active? : Option Bool
  search_title : String
deriving DecidableEq

namespace ProfileService

/-- Statistics part of `ProfileService.update_profile_execution`
(lines 437–456): increment `total_executions`, overwrite
`current_emails_found`, add to `total_emails_accumulated`, stamp
`last_execution`, append one history entry and keep only the last 50
(`history[-50:]` when the appended list exceeds 50). -/
def record_execution (s : ProfileStats) (now : Nat) (emails_found : Nat) : ProfileStats :=
  let h := s.execution_history ++ [⟨now, emails_found⟩]
  { total_executions := s.total_executions + 1
    current_emails_found := emails_found
    total_emails_accumulated := s.total_emails_accumulated + emails_found
    last_execution := some now
    execution_history := if 50 < h.length then h.drop (h.length - 50) else h }

/-- A sequence of `record_execution` calls, each given as
(timestamp, emails found). -/
def run_executions (s : ProfileStats) (calls : List (Nat × Nat)) : ProfileStats :=
  calls.foldl (fun acc c => record_execution acc c.1 c.2) s

/-- `ProfileService.get_active_profiles`: keep profiles whose
`is_active` flag, defaulted to `True` when absent, is truthy. -/
def get_active_profiles (profiles : List SearchProfile) : List SearchProfile :=
  profiles.filter (fun p => p.is_active?.getD true)

/-- Key set of `ProfileService.get_all_profiles_stats`: one entry per
stored profile with a truthy id (a stats record is defaulted when
missing, so every such profile contributes a key). -/
def get_all_profiles_stats_keys (profiles : List SearchProfile) : List String :=
  (profiles.filter (fun p => p.id ≠ "")).map (fun p => p.id)

end ProfileService

/-! ### Mail search batch (`email_search_service.py`) -/

/-- Environment a batch search runs against: whether the one IMAP
connection attempt succeeds, its failure message, and the raw outcome of
`connection.search` for a given (stripped) search title —
`Except.error` when the underlying call raises. -/
structure MailEnv where
  connect_ok : Bool
  connect_msg : String
  search_raw : String → Except String Nat

/-- Per-profile entry of the result dictionary of
`search_multiple_profiles`. -/
structure ProfileResult where
  success : Bool
  emails_found : Nat
  message : String
  profile_name : String
deriving DecidableEq

/-- Python-dict insertion: overwrite the value when the key is present
(keeping its position), otherwise append. -/
def dictInsert {α : Type} (k : String) (v : α)
    (d : List (String × α)) : List (String × α) :=
  if d.any (fun p => p.1 = k) then
    d.map (fun p => if p.1 = k then (k, v) else p)
  else d ++ [(k, v)]

namespace EmailSearchService

/-- `EmailSearchService._search_emails_by_subject_flexible`: runs the
compiled search and returns the match count; the blanket `except`
(lines 293–295) turns ANY failure of the underlying search into a
returned count of 0 — no exception escapes. -/
def search_emails_by_subject_flexible (env : MailEnv) (search_title : String) : Nat :=
  match env.search_raw search_title with
  | .ok n => n
  | .error _ => 0

/-- `EmailSearchService.search_multiple_profiles`: connect once; on
connection failure give every profile the same connect-error result;
otherwise iterate the profiles, skipping inactive ones and ones with a
blank criteria, and record a per-profile result.  The second component
counts calls to `_connect_imap` (always exactly one). -/
def search_multiple_profiles (env : MailEnv) (profiles : List SearchProfile) :
    List (String × ProfileResult) × Nat :=
  if env.connect_ok then
    (profiles.foldl (fun rs p =>
      if ¬ (p.is_active?.getD true) then
        dictInsert p.id
          { success := false, emails_found := 0, message := "Perfil inactivo",
            profile_name := p.name } rs
      else
        let search_title := pyStrip p.search_title
        if search_title = "" then
          dictInsert p.id
            { success := false, emails_found := 0,
              message := "Perfil sin criterio de busqueda",
              profile_name := p.name } rs
        else
          let emails_found := search_emails_by_subject_flexible env search_title
          dictInsert p.id
            { success := true, emails_found := emails_found,
              message := "Busqueda completada. " ++ toString emails_found
                ++ " correos encontrados",
              profile_name := p.name } rs) [], 1)
  else
    (profiles.foldl (fun rs p =>
      dictInsert p.id
        { success := false, emails_found := 0,
          message := "Error conectando: " ++ env.connect_msg,
          profile_name := p.name } rs) [], 1)

end EmailSearchService

/-! ### Scheduled-run orchestrator (`scheduler_service.py`) -/

/-- Environment of one scheduled run: credential store state, profile
store content, mail environment, report generation outcome
(`Except.error` when `generate_profiles_report` raises), send-config
readiness and the send outcome. -/
structure OrchEnv where
  credentials_exist : Bool
  credentials_ok : Bool
  profiles : List SearchProfile
  mail : MailEnv
  report_gen : Except String String
  send_ready : Bool
  send_result : Bool × String

/-- Observable outcome of `execute_scheduled_search`: the returned
(success, message) pair, the status-callback notifications in order,
the `update_profile_execution` calls made, and which pipeline stages
ran. -/
structure RunOutput where
  success : Bool
  message : String
  notifications : List (String × String)
  record_calls : List (String × Nat)
  search_invoked : Bool
  report_generated : Bool
  send_attempted : Bool
deriving DecidableEq

namespace SchedulerService

/-- `SchedulerService.execute_scheduled_search`, stage by stage:
credential checks, active-profile loading, the one-connection batch
search, per-success statistics updates, then the report
generate-and-send chain whose failures never flip the returned success
flag once the search succeeded. -/
def execute_scheduled_search (env : OrchEnv) : RunOutput :=
  if ¬ env.credentials_exist then
    { success := false, message := "No hay credenciales SMTP configuradas",
      notifications := [("Error en búsqueda automática: No hay credenciales SMTP configuradas", "error")],
      record_calls := [], search_invoked := false,
      report_generated := false, send_attempted := false }
  else if ¬ env.credentials_ok then
    { success := false, message := "No se pudieron cargar las credenciales SMTP",
      notifications := [("Error en búsqueda automática: No se pudieron cargar las credenciales SMTP", "error")],
      record_calls := [], search_invoked := false,
      report_generated := false, send_attempted := false }
  else
    let active_profiles := ProfileService.get_active_profiles env.profiles
    if active_profiles.isEmpty then
      { success := false, message := "No hay perfiles activos",
        notifications := [("Búsqueda automática: No hay perfiles activos", "warning")],
        record_calls := [], search_invoked := false,
        report_generated := false, send_attempted := false }
    else
      let startNote :=
        ("Iniciando búsqueda automática para " ++ toString active_profiles.length
          ++ " perfiles...", "info")
      let results := (EmailSearchService.search_multiple_profiles env.mail active_profiles).1
      let record_calls := results.filterMap (fun pr =>
        if pr.2.success then some (pr.1, pr.2.emails_found) else none)
      let total_emails := (record_calls.map (fun c => c.2)).sum
      let successful_profiles := record_calls.length
      let search_message :=
        "Búsqueda automática completada: " ++ toString successful_profiles ++ "/"
          ++ toString results.length ++ " perfiles exitosos, "
          ++ toString total_emails ++ " correos encontrados"
      if successful_profiles = 0 then
        { success := true, message := "Búsqueda completada sin resultados",
          notifications := [startNote,
            ("Búsqueda automática completada sin resultados", "warning")],
          record_calls := record_calls, search_invoked := true,
          report_generated := false, send_attempted := false }
      else
        let notes0 := [startNote, ("Generando reporte Excel...", "info")]
        if (ProfileService.get_all_profiles_stats_keys env.profiles).isEmpty then
          { success := true, message := search_message ++ ". Reporte no generado: sin datos",
            notifications := notes0 ++ [("No hay datos para generar reporte", "warning")],
            record_calls := record_calls, search_invoked := true,
            report_generated := false, send_attempted := false }
        else
          match env.report_gen with
          | .error report_error =>
            { success := true,
              message := search_message ++ ". Error generando/enviando reporte: "
                ++ clean_string report_error,
              notifications := notes0
                ++ [("Error con reporte: " ++ clean_string report_error, "error")],
              record_calls := record_calls, search_invoked := true,
              report_generated := false, send_attempted := false }
          | .ok report_path =>
            let notes1 := notes0
              ++ [("Reporte Excel generado: " ++ report_path, "success")]
            if ¬ env.send_ready then
              { success := true,
                message := search_message
                  ++ ". Reporte generado pero no enviado (configuración de envío no lista)",
                notifications := notes1
                  ++ [("Reporte no enviado: configuración de envío incompleta", "warning")],
                record_calls := record_calls, search_invoked := true,
                report_generated := true, send_attempted := false }
            else
              let notes2 := notes1 ++ [("Enviando reporte por correo...", "info")]
              match env.send_result with
              | (true, send_message) =>
                { success := true,
                  message := search_message
                    ++ ". Reporte generado y enviado por correo exitosamente",
                  notifications := notes2
                    ++ [("Reporte enviado por correo: " ++ send_message, "success")],
                  record_calls := record_calls, search_invoked := true,
                  report_generated := true, send_attempted := true }
              | (false, send_message) =>
                { success := true,
                  message := search_message
                    ++ ". Reporte generado pero error enviando: " ++ send_message,
                  notifications := notes2
                    ++ [("Error enviando reporte: " ++ send_message, "error")],
                  record_calls := record_calls, search_invoked := true,
                  report_generated := true, send_attempted := true }

end SchedulerService

/-! ### Trigger firing semantics (`scheduler_service.py` with the
`schedule` library) -/

/-- What a `schedule` job function may return: `schedule.CancelJob`
(remove the job after this run) or an ordinary value. -/
inductive JobReturn where
  | cancelJob
  | value
deriving DecidableEq

namespace SchedulerService

/-- Return value of `SchedulerService._job_wrapper` (line 391): after
spawning the search thread it returns `schedule.CancelJob`. -/
def job_wrapper_return : JobReturn := .cancelJob

/-- One trigger entry in the `schedule` job list: its next due instant
and its recurrence period in seconds, both derived from the
configuration by `_configure_schedule`. -/
structure ScheduleJob where
  next_run : Nat
  period : Nat
deriving DecidableEq

/-- The `schedule` library's `run_pending` at instant `t`, with every
job bound to `_job_wrapper`: each due job runs once; a job whose
function returned `CancelJob` is removed, any other due job is
rescheduled one period later.  Returns the remaining job list and the
number of job-function invocations. -/
def run_pending (t : Nat) (jobs : List ScheduleJob) : List ScheduleJob × Nat :=
  match jobs with
  | [] => ([], 0)
  | j :: rest =>
    let tail := run_pending t rest
    if j.next_run ≤ t then
      match job_wrapper_return with
      | .cancelJob => (tail.1, tail.2 + 1)
      | .value => ({ j with next_run := j.next_run + j.period } :: tail.1, tail.2 + 1)
    else (j :: tail.1, tail.2)

end SchedulerService

/-! ### Concrete environments and records used by the closed theorems -/

/-- A mail environment whose one connection succeeds and whose every
search finds 2 messages. -/
def mailEnvOk : MailEnv :=
  { connect_ok := true, connect_msg := "", search_raw := fun _ => Except.ok 2 }

/-- Orchestrator environment with an empty profile store (hence no
active profiles) and working credentials. -/
def envNoProfiles : OrchEnv :=
  { credentials_exist := true, credentials_ok := true, profiles := [],
    mail := mailEnvOk, report_gen := Except.ok "reporte_perfiles.xlsx",
    send_ready := false, send_result := (true, "") }

/-- One stored, active profile with criteria "Factura". -/
def profileFactura : SearchProfile :=
  { id := "p1", name := "Perfil 1", is_active? := some true,
    search_title := "Factura" }

/-- Orchestrator environment in which the search succeeds (2 matches),
the report is generated, sending is configured, and dispatch fails. -/
def envSendFails : OrchEnv :=
  { credentials_exist := true, credentials_ok := true,
    profiles := [profileFactura], mail := mailEnvOk,
    report_gen := Except.ok "reporte_perfiles.xlsx",
    send_ready := true, send_result := (false, "SMTP caido") }

/-- First of three batch profiles. -/
def profileUno : SearchProfile :=
  { id := "p1", name := "Perfil Uno", is_active? := some true,
    search_title := "Titulo Uno" }

/-- Second of three batch profiles (the one whose search fails). -/
def profileDos : SearchProfile :=
  { id := "p2", name := "Perfil Dos", is_active? := some true,
    search_title := "Titulo Dos" }

/-- Third of three batch profiles. -/
def profileTres : SearchProfile :=
  { id := "p3", name := "Perfil Tres", is_active? := some true,
    search_title := "Titulo Tres" }

/-- Mail environment whose underlying search raises only for profile 2's
title. -/
def mailEnvFailsDos : MailEnv :=
  { connect_ok := true, connect_msg := "",
    search_raw := fun t =>
      if t = "Titulo Dos" then Except.error "fallo IMAP en la busqueda"
      else if t = "Titulo Uno" then Except.ok 4
      else Except.ok 7 }

/-- A persisted profile record that lacks the `is_active` key. -/
def profileSinFlag : SearchProfile :=
  { id := "p9", name := "Perfil Legacy", is_active? := none,
    search_title := "Constancia" }

/-! ## Theorems -/

/-! ### Helper lemmas -/

/-- The history field written by `record_execution` is the last 50
entries of the old history with the new entry appended. -/
theorem record_execution_history (s : ProfileStats) (t n : Nat) :
    (ProfileService.record_execution s t n).execution_history
      = (s.execution_history ++ [ExecutionRecord.mk t n]).rtake 50 := by
  unfold ProfileService.record_execution List.rtake
  dsimp only
  split
  · rfl
  · rename_i h
    rw [Nat.sub_eq_zero_of_le (by omega), List.drop_zero]

/-- Taking the last `n` of a list, appending, and taking the last `n`
again is the same as taking the last `n` of the whole append. -/
theorem rtake_append_rtake {α : Type} (l m : List α) (n : Nat) :
    ((l.rtake n) ++ m).rtake n = (l ++ m).rtake n := by
  simp only [List.rtake_eq_reverse_take_reverse, List.reverse_append,
    List.reverse_reverse]
  rw [List.take_append_eq_append_take, List.take_append_eq_append_take,
    List.take_take, Nat.min_eq_left (Nat.sub_le _ _)]

/-- Running any sequence of executions over a record whose history is
within the bound leaves exactly the last 50 entries of the full
(appended) history. -/
theorem run_executions_history (calls : List (Nat × Nat)) :
    ∀ s : ProfileStats, s.execution_history.length ≤ 50 →
      (ProfileService.run_executions s calls).execution_history
        = (s.execution_history ++ calls.map (fun c => ExecutionRecord.mk c.1 c.2)).rtake 50 := by
  induction calls with
  | nil =>
    intro s hs
    simp [ProfileService.run_executions, List.rtake, Nat.sub_eq_zero_of_le hs]
  | cons c cs ih =>
    intro s hs
    have hrec := record_execution_history s c.1 c.2
    have hlen : (ProfileService.record_execution s c.1 c.2).execution_history.length ≤ 50 := by
      rw [hrec]
      simp only [List.rtake, List.length_drop]
      omega
    have hstep : ProfileService.run_executions s (c :: cs)
        = ProfileService.run_executions (ProfileService.record_execution s c.1 c.2) cs := rfl
    rw [hstep, ih _ hlen, hrec, rtake_append_rtake]
    simp

/-- Merging adjacent string literals under right association: space then
open parenthesis. -/
theorem str_sp_lparen (x : String) : " " ++ ("(" ++ x) = " (" ++ x := by
  rw [← String.append_assoc]; rfl

/-- Merging adjacent string literals: two OR keywords. -/
theorem str_or_or (x : String) : "OR " ++ ("OR " ++ x) = "OR OR " ++ x := by
  rw [← String.append_assoc]; rfl

/-- Merging adjacent string literals: close parenthesis then space and
open parenthesis. -/
theorem str_rp_sp_lparen (x : String) : ")" ++ (" (" ++ x) = ") (" ++ x := by
  rw [← String.append_assoc]; rfl

/-- Merging adjacent string literals: space then the SINCE keyword. -/
theorem str_sp_since (x : String) : " " ++ ("SINCE \"" ++ x) = " SINCE \"" ++ x := by
  rw [← String.append_assoc]; rfl

/-- Merging adjacent string literals: closing quote then parenthesis. -/
theorem str_q_rp : ("\"" : String) ++ ")" = "\")" := rfl

/-- Merging adjacent string literals: open parenthesis then the SUBJECT
keyword. -/
theorem str_lp_subject (x : String) : "(" ++ ("SUBJECT \"" ++ x) = "(SUBJECT \"" ++ x := by
  rw [← String.append_assoc]; rfl

/-- Merging adjacent string literals: closing quote then the SINCE
keyword. -/
theorem str_q_sp_since (x : String) : "\"" ++ (" SINCE \"" ++ x) = "\" SINCE \"" ++ x := by
  rw [← String.append_assoc]; rfl

/-- Rendering a conjunction of subject atoms is the space-join of the
individual SUBJECT fragments, exactly as the code builds it. -/
theorem renderList_map_subject (ws : List String) :
    Criteria.renderList (ws.map Criteria.subject)
      = EmailSearchService.joinSpace (ws.map EmailSearchService.subjectCriteria) := by
  induction ws with
  | nil => rfl
  | cons w ws ih =>
    cases ws with
    | nil => rfl
    | cons v vs =>
      simp only [List.map_cons] at ih ⊢
      rw [show Criteria.renderList
            (Criteria.subject w :: Criteria.subject v :: vs.map Criteria.subject)
          = (Criteria.subject w).render ++ " "
            ++ Criteria.renderList (Criteria.subject v :: vs.map Criteria.subject) from rfl]
      rw [ih]
      rfl

/-! ### C1: trigger firing and rescheduling -/

/-- C1 counterexample: a single daily-style trigger due at instant 0.
One pass of `run_pending` fires it exactly once and then the job list is
empty — the trigger IS removed from the job list as a consequence of
having fired (because `_job_wrapper` returns `schedule.CancelJob`), so
it is not rescheduled for the next recurring instant. -/
theorem c1_counterexample :
    (SchedulerService.run_pending 0 [⟨0, 86400⟩]).1 = []
  ∧ (SchedulerService.run_pending 0 [⟨0, 86400⟩]).2 = 1 := ⟨rfl, rfl⟩

/-- C1 amended: once the scheduler is started, each derived trigger that
is due fires the job exactly once and is then removed from the job list
(it cancels itself via `schedule.CancelJob` returned by `_job_wrapper`),
so it is NOT rescheduled for the next recurring instant; triggers that
did not fire stay untouched. -/
theorem c1_fired_trigger_cancelled :
    ∀ (t : Nat) (jobs : List SchedulerService.ScheduleJob),
      (SchedulerService.run_pending t jobs).1
        = jobs.filter (fun j => decide (t < j.next_run))
    ∧ (SchedulerService.run_pending t jobs).2
        = (jobs.filter (fun j => decide (j.next_run ≤ t))).length := by
  intro t jobs
  induction jobs with
  | nil => exact ⟨rfl, rfl⟩
  | cons j rest ih =>
    by_cases h : j.next_run ≤ t
    · simp [SchedulerService.run_pending, SchedulerService.job_wrapper_return,
        h, Nat.not_lt.mpr h, List.filter_cons, ih.1, ih.2]
    · simp [SchedulerService.run_pending, h, Nat.lt_of_not_le h,
        List.filter_cons, ih.1, ih.2]

/-! ### C2: weekly schedule with empty days list -/

/-- C2 counterexample: a weekly configuration with `enabled = true`,
well-formed time and an EMPTY days list is accepted by
`save_configuration` (no error is raised), contradicting the claim that
it is rejected. -/
theorem c2_counterexample :
    SchedulerService.save_configuration
      ⟨some "weekly", some true, some "09:00", some [], none, none⟩
      = Except.ok ⟨some "weekly", some true, some "09:00", some [], none, none⟩ := by
  rfl

/-- C2 amended: `save_configuration` never checks that a weekly
configuration has a non-empty days list: every weekly configuration with
a well-formed time and `days = []` is accepted regardless of the
`enabled` flag (the at-least-one-day rejection lives in the GUI modal,
not in the service). -/
theorem c2_accepts_weekly_empty_days (e : Bool) (tm : String)
    (i : Option Int) (u : Option String)
    (h : validTimeHHMM tm = true) :
    SchedulerService.save_configuration ⟨some "weekly", some e, some tm, some [], i, u⟩
      = Except.ok (SchedulerService.clean_config
          ⟨some "weekly", some e, some tm, some [], i, u⟩) := by
  have hv : SchedulerService.validate_config
      ⟨some "weekly", some e, some tm, some [], i, u⟩ = true := by
    simp [SchedulerService.validate_config, h]
  simp [SchedulerService.save_configuration, hv]

/-- C2 witness: the amended theorem applied at the concrete rejected
configuration of the claim (enabled, time 09:00, no days). -/
theorem c2_witness :
    validTimeHHMM "09:00" = true
  ∧ SchedulerService.save_configuration
      ⟨some "weekly", some true, some "09:00", some [], none, none⟩
      = Except.ok (SchedulerService.clean_config
          ⟨some "weekly", some true, some "09:00", some [], none, none⟩) :=
  ⟨by decide, c2_accepts_weekly_empty_days true "09:00" none none (by decide)⟩

/-! ### C3: shape of the compiled multi-word filter -/

/-- C3: for every criteria string with internal whitespace whose
significant-word filtering leaves at least two words, the compiled
filter is exactly the rendering of: with 2 or 3 significant words, the
OR of (subject contains the full cleaned phrase) and (subject contains
every significant word), conjoined with the SINCE date bound; with more
than 3, the same two alternatives plus a third OR-alternative requiring
only the first 3 significant words. -/
theorem c3_flexible_filter_shape (t d : String)
    (hsp : (EmailSearchService.clean_string (pyStrip t)).data.contains ' ' = true)
    (h2 : 2 ≤ (EmailSearchService.significant_words
        (pySplit (EmailSearchService.clean_string (pyStrip t)))).length) :
    EmailSearchService.build_flexible_search_criteria t d
      = (specFlexibleFilter (EmailSearchService.clean_string (pyStrip t))
          (EmailSearchService.significant_words
            (pySplit (EmailSearchService.clean_string (pyStrip t)))) d).render := by
  have hne : ¬ (EmailSearchService.clean_string (pyStrip t) = "") := by
    intro h
    rw [h] at hsp
    simp at hsp
  have h1 : ¬ ((EmailSearchService.significant_words
      (pySplit (EmailSearchService.clean_string (pyStrip t)))).length = 1) := by
    omega
  have hgt : 1 < (EmailSearchService.significant_words
      (pySplit (EmailSearchService.clean_string (pyStrip t)))).length := by
    omega
  simp only [EmailSearchService.build_flexible_search_criteria, specFlexibleFilter]
  rw [if_neg hne, if_pos hsp, if_neg h1, if_pos hgt]
  by_cases h3 : (EmailSearchService.significant_words
      (pySplit (EmailSearchService.clean_string (pyStrip t)))).length ≤ 3
  · rw [if_pos h3, if_pos h3]
    rw [show (Criteria.andGroup
          [Criteria.or (Criteria.subject (EmailSearchService.clean_string (pyStrip t)))
            (Criteria.andGroup ((EmailSearchService.significant_words
              (pySplit (EmailSearchService.clean_string (pyStrip t)))).map Criteria.subject)),
           Criteria.since d]).render
        = "(" ++ (("OR "
            ++ ("SUBJECT \"" ++ EmailSearchService.clean_string (pyStrip t) ++ "\"")
            ++ " "
            ++ ("(" ++ Criteria.renderList ((EmailSearchService.significant_words
                  (pySplit (EmailSearchService.clean_string (pyStrip t)))).map Criteria.subject)
                ++ ")"))
            ++ " " ++ ("SINCE \"" ++ d ++ "\"")) ++ ")" from rfl]
    rw [renderList_map_subject]
    simp only [String.append_assoc, str_sp_lparen, str_sp_since, str_q_rp]
  · rw [if_neg h3, if_neg h3]
    rw [show (Criteria.andGroup
          [Criteria.or
            (Criteria.or (Criteria.subject (EmailSearchService.clean_string (pyStrip t)))
              (Criteria.andGroup ((EmailSearchService.significant_words
                (pySplit (EmailSearchService.clean_string (pyStrip t)))).map Criteria.subject)))
            (Criteria.andGroup (((EmailSearchService.significant_words
              (pySplit (EmailSearchService.clean_string (pyStrip t)))).take 3).map Criteria.subject)),
           Criteria.since d]).render
        = "(" ++ (("OR "
            ++ ("OR "
              ++ ("SUBJECT \"" ++ EmailSearchService.clean_string (pyStrip t) ++ "\"")
              ++ " "
              ++ ("(" ++ Criteria.renderList ((EmailSearchService.significant_words
                    (pySplit (EmailSearchService.clean_string (pyStrip t)))).map Criteria.subject)
                  ++ ")"))
            ++ " "
            ++ ("(" ++ Criteria.renderList (((EmailSearchService.significant_words
                  (pySplit (EmailSearchService.clean_string (pyStrip t)))).take 3).map Criteria.subject)
                ++ ")"))
            ++ " " ++ ("SINCE \"" ++ d ++ "\"")) ++ ")" from rfl]
    rw [renderList_map_subject, renderList_map_subject]
    simp only [String.append_assoc, str_or_or, str_sp_lparen, str_rp_sp_lparen,
      str_sp_since, str_q_rp]

/-- C3 witness: the theorem at a concrete two-significant-word criteria
("Pedido Confirmacion") and date. -/
theorem c3_witness :
    (EmailSearchService.clean_string (pyStrip "Pedido Confirmacion")).data.contains ' ' = true
  ∧ EmailSearchService.build_flexible_search_criteria "Pedido Confirmacion" "01-Jan-2024"
      = (specFlexibleFilter (EmailSearchService.clean_string (pyStrip "Pedido Confirmacion"))
          (EmailSearchService.significant_words
            (pySplit (EmailSearchService.clean_string (pyStrip "Pedido Confirmacion"))))
          "01-Jan-2024").render :=
  ⟨by decide, c3_flexible_filter_shape "Pedido Confirmacion" "01-Jan-2024"
      (by decide) (by decide)⟩

/-! ### C8: compilation always yields a usable filter -/

/-- C8: filter compilation is a total function (no exception can escape:
every failure of the underlying primitives is already absorbed inside
it) and for every criteria string and date the result is a usable filter
anchored by the SINCE date bound — either the bare date bound, or a
parenthesized filter conjoined with that bound. -/
theorem c8_compilation_always_usable (t d : String) :
    EmailSearchService.build_flexible_search_criteria t d
      = "SINCE \"" ++ d ++ "\""
  ∨ ∃ body, EmailSearchService.build_flexible_search_criteria t d
      = "(" ++ body ++ " SINCE \"" ++ d ++ "\")" := by
  simp only [EmailSearchService.build_flexible_search_criteria]
  by_cases h0 : EmailSearchService.clean_string (pyStrip t) = ""
  · rw [if_pos h0]
    exact Or.inl rfl
  · rw [if_neg h0]
    by_cases hsp : (EmailSearchService.clean_string (pyStrip t)).data.contains ' ' = true
    · rw [if_pos hsp]
      by_cases h1 : (EmailSearchService.significant_words
          (pySplit (EmailSearchService.clean_string (pyStrip t)))).length = 1
      · rw [if_pos h1]
        refine Or.inr ⟨"SUBJECT \""
          ++ (EmailSearchService.significant_words
              (pySplit (EmailSearchService.clean_string (pyStrip t)))).headD ""
          ++ "\"", ?_⟩
        simp only [String.append_assoc, str_lp_subject, str_q_sp_since]
      · rw [if_neg h1]
        by_cases hgt : 1 < (EmailSearchService.significant_words
            (pySplit (EmailSearchService.clean_string (pyStrip t)))).length
        · rw [if_pos hgt]
          by_cases h3 : (EmailSearchService.significant_words
              (pySplit (EmailSearchService.clean_string (pyStrip t)))).length ≤ 3
          · rw [if_pos h3]
            exact Or.inr ⟨_, rfl⟩
          · rw [if_neg h3]
            exact Or.inr ⟨_, rfl⟩
        · rw [if_neg hgt]
          exact Or.inl rfl
    · rw [if_neg hsp]
      refine Or.inr ⟨"SUBJECT \"" ++ EmailSearchService.clean_string (pyStrip t)
        ++ "\"", ?_⟩
      simp only [String.append_assoc, str_lp_subject, str_q_sp_since]

/-! ### C4: recordExecution overwrite/accumulate semantics -/

/-- C4: each `record_execution` call overwrites `current_emails_found`
with its argument, adds its argument to `total_emails_accumulated` and
increments `total_executions`; in particular two successive calls with
counts 5 then 3 on a fresh record leave 3 / 8 / 2. -/
theorem c4_record_execution_overwrites_and_accumulates :
    (∀ (s : ProfileStats) (t n : Nat),
        (ProfileService.record_execution s t n).current_emails_found = n
      ∧ (ProfileService.record_execution s t n).total_emails_accumulated
          = s.total_emails_accumulated + n
      ∧ (ProfileService.record_execution s t n).total_executions
          = s.total_executions + 1)
  ∧ (∀ t1 t2 : Nat,
        (ProfileService.record_execution
          (ProfileService.record_execution initProfileStats t1 5) t2 3).current_emails_found = 3
      ∧ (ProfileService.record_execution
          (ProfileService.record_execution initProfileStats t1 5) t2 3).total_emails_accumulated = 8
      ∧ (ProfileService.record_execution
          (ProfileService.record_execution initProfileStats t1 5) t2 3).total_executions = 2) :=
  ⟨fun _ _ _ => ⟨rfl, rfl, rfl⟩, fun _ _ => ⟨rfl, rfl, rfl⟩⟩

/-! ### C5: history bounded to the most recent 50 entries -/

/-- C5: after any `record_execution` call the history holds at most 50
entries, and after a sequence of 51 calls starting from a fresh record
the history is exactly the most recent 50 calls in chronological order
(the oldest entry dropped). -/
theorem c5_history_truncation :
    (∀ (s : ProfileStats) (t n : Nat),
        (ProfileService.record_execution s t n).execution_history.length ≤ 50)
  ∧ (∀ calls : List (Nat × Nat), calls.length = 51 →
        (ProfileService.run_executions initProfileStats calls).execution_history
          = (calls.drop 1).map (fun c => ExecutionRecord.mk c.1 c.2)) := by
  constructor
  · intro s t n
    rw [record_execution_history]
    simp only [List.rtake, List.length_drop]
    omega
  · intro calls hlen
    have h0 : (initProfileStats.execution_history).length ≤ 50 := by
      simp [initProfileStats]
    rw [run_executions_history calls initProfileStats h0]
    have h51 : (51 : Nat) - 50 = 1 := rfl
    simp only [initProfileStats, List.nil_append, List.rtake, List.length_map, hlen,
      h51, List.map_drop]

/-- C5 witness: fifty-one concrete calls leave exactly the most recent
fifty history entries, in order. -/
theorem c5_witness :
    ((List.range 51).map (fun k => (k, k))).length = 51
  ∧ (ProfileService.run_executions initProfileStats
        ((List.range 51).map (fun k => (k, k)))).execution_history
      = (((List.range 51).map (fun k => (k, k))).drop 1).map (fun c => ExecutionRecord.mk c.1 c.2) :=
  ⟨by decide, c5_history_truncation.2 _ (by decide)⟩

/-! ### C6: batch isolation when one profile's search fails -/

/-- C6 counterexample: three active profiles, the mail layer raising only
for profile 2's title.  The failing profile is reported with
success = TRUE and 0 emails found (the failure is swallowed inside
`_search_emails_by_subject_flexible`, which returns 0), not
success = false as the claim states; the other two succeed with their
counts, and the connection is opened exactly once. -/
theorem c6_counterexample :
    ((EmailSearchService.search_multiple_profiles mailEnvFailsDos
        [profileUno, profileDos, profileTres]).1.lookup "p2")
      = some { success := true, emails_found := 0,
               message := "Busqueda completada. 0 correos encontrados",
               profile_name := "Perfil Dos" }
  ∧ ((EmailSearchService.search_multiple_profiles mailEnvFailsDos
        [profileUno, profileDos, profileTres]).1.lookup "p1")
      = some { success := true, emails_found := 4,
               message := "Busqueda completada. 4 correos encontrados",
               profile_name := "Perfil Uno" }
  ∧ ((EmailSearchService.search_multiple_profiles mailEnvFailsDos
        [profileUno, profileDos, profileTres]).1.lookup "p3")
      = some { success := true, emails_found := 7,
               message := "Busqueda completada. 7 correos encontrados",
               profile_name := "Perfil Tres" }
  ∧ (EmailSearchService.search_multiple_profiles mailEnvFailsDos
        [profileUno, profileDos, profileTres]).2 = 1 :=
  ⟨rfl, rfl, rfl, rfl⟩

/-- C6 amended: one profile's search failure never aborts the batch and
the connection is opened exactly once, but the failing profile is
reported success = true with 0 emails found — the blanket handler inside
the flexible search swallows the failure and counts it as zero — while
every other active, criteria-bearing profile gets success = true with
its count. -/
theorem c6_batch_swallows_search_failure
    (env : MailEnv) (p1 p2 p3 : SearchProfile) (n1 n3 : Nat) (e : String)
    (h12 : p1.id ≠ p2.id) (h13 : p1.id ≠ p3.id) (h23 : p2.id ≠ p3.id)
    (ha1 : p1.is_active?.getD true = true)
    (ha2 : p2.is_active?.getD true = true)
    (ha3 : p3.is_active?.getD true = true)
    (ht1 : pyStrip p1.search_title ≠ "")
    (ht2 : pyStrip p2.search_title ≠ "")
    (ht3 : pyStrip p3.search_title ≠ "")
    (hconn : env.connect_ok = true)
    (hs1 : env.search_raw (pyStrip p1.search_title) = Except.ok n1)
    (hs2 : env.search_raw (pyStrip p2.search_title) = Except.error e)
    (hs3 : env.search_raw (pyStrip p3.search_title) = Except.ok n3) :
    ((EmailSearchService.search_multiple_profiles env [p1, p2, p3]).1.lookup p1.id)
      = some { success := true, emails_found := n1,
               message := "Busqueda completada. " ++ toString n1 ++ " correos encontrados",
               profile_name := p1.name }
  ∧ ((EmailSearchService.search_multiple_profiles env [p1, p2, p3]).1.lookup p2.id)
      = some { success := true, emails_found := 0,
               message := "Busqueda completada. 0 correos encontrados",
               profile_name := p2.name }
  ∧ ((EmailSearchService.search_multiple_profiles env [p1, p2, p3]).1.lookup p3.id)
      = some { success := true, emails_found := n3,
               message := "Busqueda completada. " ++ toString n3 ++ " correos encontrados",
               profile_name := p3.name }
  ∧ (EmailSearchService.search_multiple_profiles env [p1, p2, p3]).2 = 1 := by
  have e21 : (p2.id == p1.id) = false := beq_eq_false_iff_ne.mpr (Ne.symm h12)
  have e31 : (p3.id == p1.id) = false := beq_eq_false_iff_ne.mpr (Ne.symm h13)
  have e32 : (p3.id == p2.id) = false := beq_eq_false_iff_ne.mpr (Ne.symm h23)
  simp [EmailSearchService.search_multiple_profiles,
    EmailSearchService.search_emails_by_subject_flexible, dictInsert, List.lookup,
    hconn, ha1, ha2, ha3, ht1, ht2, ht3, hs1, hs2, hs3,
    h12, h13, h23, Ne.symm h12, Ne.symm h13, Ne.symm h23, e21, e31, e32]
  rfl

/-- C6 witness: the amended theorem at the concrete three-profile batch
where only profile 2's search raises. -/
theorem c6_witness :
    ((EmailSearchService.search_multiple_profiles mailEnvFailsDos
        [profileUno, profileDos, profileTres]).1.lookup profileDos.id)
      = some { success := true, emails_found := 0,
               message := "Busqueda completada. 0 correos encontrados",
               profile_name := profileDos.name }
  ∧ (EmailSearchService.search_multiple_profiles mailEnvFailsDos
        [profileUno, profileDos, profileTres]).2 = 1 := by
  have h := c6_batch_swallows_search_failure mailEnvFailsDos
    profileUno profileDos profileTres 4 7 "fallo IMAP en la busqueda"
    (by decide) (by decide) (by decide) rfl rfl rfl
    (by decide) (by decide) (by decide) rfl rfl rfl rfl
  exact ⟨h.2.1, h.2.2.2⟩

/-! ### C7: run with no active profiles -/

/-- C7: when credentials exist and load but there is no active profile,
the run reports the benign "no active profiles" outcome at warning (not
error) severity, stops without invoking the batch search, makes no
`update_profile_execution` call, and neither generates nor sends a
report. -/
theorem c7_no_active_profiles (env : OrchEnv)
    (hex : env.credentials_exist = true) (hok : env.credentials_ok = true)
    (hempty : ProfileService.get_active_profiles env.profiles = []) :
    SchedulerService.execute_scheduled_search env =
      { success := false, message := "No hay perfiles activos",
        notifications := [("Búsqueda automática: No hay perfiles activos", "warning")],
        record_calls := [], search_invoked := false,
        report_generated := false, send_attempted := false } := by
  simp [SchedulerService.execute_scheduled_search, hex, hok, hempty]

/-- C7 witness: the theorem at a concrete environment whose profile
store is empty. -/
theorem c7_witness :
    ProfileService.get_active_profiles envNoProfiles.profiles = []
  ∧ SchedulerService.execute_scheduled_search envNoProfiles =
      { success := false, message := "No hay perfiles activos",
        notifications := [("Búsqueda automática: No hay perfiles activos", "warning")],
        record_calls := [], search_invoked := false,
        report_generated := false, send_attempted := false } :=
  ⟨rfl, c7_no_active_profiles envNoProfiles rfl rfl rfl⟩

/-! ### C9: report dispatch failure after a successful search -/

/-- C9 counterexample: a run whose search succeeds, whose report is
generated, and whose dispatch fails.  The run is still reported
successful, but the dispatch failure is notified at ERROR severity —
no notification of the whole run carries the claimed warning level. -/
theorem c9_counterexample :
    (SchedulerService.execute_scheduled_search envSendFails).success = true
  ∧ (SchedulerService.execute_scheduled_search envSendFails).notifications.getLast?
      = some ("Error enviando reporte: SMTP caido", "error")
  ∧ (SchedulerService.execute_scheduled_search envSendFails).notifications.all
      (fun nt => nt.2 ≠ "warning") = true :=
  ⟨rfl, rfl, rfl⟩

/-- C9 amended: when the search succeeded and the report was generated
but the dispatch fails, the overall run is still reported successful
(the returned success flag stays true) and the report was generated and
a send attempted — but the dispatch failure is notified at error
severity, not at a warning level. -/
theorem c9_send_failure_keeps_run_successful
    (env : OrchEnv) (p : SearchProfile) (n : Nat) (path m : String)
    (hex : env.credentials_exist = true)
    (hok : env.credentials_ok = true)
    (hp : env.profiles = [p])
    (hact : p.is_active?.getD true = true)
    (htitle : pyStrip p.search_title ≠ "")
    (hid : p.id ≠ "")
    (hconn : env.mail.connect_ok = true)
    (hsearch : env.mail.search_raw (pyStrip p.search_title) = Except.ok n)
    (hgen : env.report_gen = Except.ok path)
    (hready : env.send_ready = true)
    (hsend : env.send_result = (false, m)) :
    (SchedulerService.execute_scheduled_search env).success = true
  ∧ (SchedulerService.execute_scheduled_search env).notifications.getLast?
      = some ("Error enviando reporte: " ++ m, "error")
  ∧ (SchedulerService.execute_scheduled_search env).report_generated = true
  ∧ (SchedulerService.execute_scheduled_search env).send_attempted = true := by
  have hactive : ProfileService.get_active_profiles env.profiles = [p] := by
    simp [ProfileService.get_active_profiles, hp, hact]
  have hkeys : ProfileService.get_all_profiles_stats_keys env.profiles = [p.id] := by
    simp [ProfileService.get_all_profiles_stats_keys, hp, hid]
  simp [SchedulerService.execute_scheduled_search, hex, hok, hactive, hkeys,
    EmailSearchService.search_multiple_profiles,
    EmailSearchService.search_emails_by_subject_flexible, dictInsert,
    hconn, hact, htitle, hsearch, hgen, hready, hsend]

/-- C9 witness: the amended theorem at the concrete failing-dispatch
environment. -/
theorem c9_witness :
    (SchedulerService.execute_scheduled_search envSendFails).success = true
  ∧ (SchedulerService.execute_scheduled_search envSendFails).notifications.getLast?
      = some ("Error enviando reporte: " ++ "SMTP caido", "error") :=
  have h := c9_send_failure_keeps_run_successful envSendFails profileFactura 2
    "reporte_perfiles.xlsx" "SMTP caido" rfl rfl rfl rfl (by decide) (by decide)
    rfl rfl rfl rfl rfl
  ⟨h.1, h.2.1⟩

/-! ### C10: missing is-active field defaults to active -/

/-- C10: a persisted profile record lacking the `is_active` key is
treated as active: it is kept by `get_active_profiles`, and
`search_multiple_profiles` searches it (reporting success with its
count) instead of skipping it as "Perfil inactivo". -/
theorem c10_missing_active_flag_defaults_true :
    (∀ (profiles : List SearchProfile) (p : SearchProfile),
        p ∈ profiles → p.is_active? = none →
        p ∈ ProfileService.get_active_profiles profiles)
  ∧ (∀ (env : MailEnv) (p : SearchProfile) (n : Nat),
        p.is_active? = none → env.connect_ok = true →
        pyStrip p.search_title ≠ "" →
        env.search_raw (pyStrip p.search_title) = Except.ok n →
        (EmailSearchService.search_multiple_profiles env [p]).1
          = [(p.id, { success := true, emails_found := n,
                      message := "Busqueda completada. " ++ toString n
                        ++ " correos encontrados",
                      profile_name := p.name })]) := by
  constructor
  · intro profiles p hmem hnone
    simp [ProfileService.get_active_profiles, List.mem_filter, hmem, hnone]
  · intro env p n hnone hconn htitle hsearch
    simp [EmailSearchService.search_multiple_profiles,
      EmailSearchService.search_emails_by_subject_flexible, dictInsert,
      hconn, hnone, htitle, hsearch]

/-- C10 witness: a concrete record without the `is_active` key is both
kept by the active-profile loader and searched successfully by the
batch search. -/
theorem c10_witness :
    profileSinFlag ∈ ProfileService.get_active_profiles [profileSinFlag]
  ∧ (EmailSearchService.search_multiple_profiles mailEnvOk [profileSinFlag]).1
      = [(profileSinFlag.id,
          { success := true, emails_found := 2,
            message := "Busqueda completada. " ++ toString 2 ++ " correos encontrados",
            profile_name := profileSinFlag.name })] :=
  ⟨c10_missing_active_flag_defaults_true.1 [profileSinFlag] profileSinFlag
      (by simp) rfl,
   c10_missing_active_flag_defaults_true.2 mailEnvOk profileSinFlag 2
      rfl rfl (by decide) rfl⟩

end OpoBot
